import Mathlib

/-!
Shallow embedding of `rclcpp/include/rclcpp/detail/qos_parameters.hpp`:
the QoS parameter-override engine. Pure C++ functions become Lean
functions, C++ exceptions become `Except` errors, and the mutation of
the `rclcpp::QoS` profile (a thin wrapper around `rmw_qos_profile_t`)
becomes explicit state passing of an `RmwQosProfile` record.

External collaborators of the fragment (the rmw enum string lookup
tables, `rclcpp::Duration`, the `rclcpp::QoS` accessors, the parameter
store) are modelled from the spec where their code is not part of the
fragment; each such definition is marked `Modelled from the spec:`.
-/

set_option autoImplicit false

namespace QosParams

/-- Equality of fallible results is decidable, so closed runs of the
engine can be checked by evaluation. -/
instance {ε α : Type} [DecidableEq ε] [DecidableEq α] : DecidableEq (Except ε α) := fun a b =>
  match a, b with
  | .error x, .error y => decidable_of_iff (x = y) (by simp)
  | .ok x, .ok y => decidable_of_iff (x = y) (by simp)
  | .error _, .ok _ => isFalse (by simp)
  | .ok _, .error _ => isFalse (by simp)

/-- Modelled from the spec: the rmw durability policy enumeration, an
external collaborator (spec section 6, enum string lookup tables). The
`unknown` value is the one with no canonical string. -/
inductive DurabilityPolicy where
  | systemDefault
  | transientLocal
  | volatile
  | unknown
  deriving DecidableEq

/-- Modelled from the spec: the rmw history policy enumeration. -/
inductive HistoryPolicy where
  | systemDefault
  | keepLast
  | keepAll
  | unknown
  deriving DecidableEq

/-- Modelled from the spec: the rmw liveliness policy enumeration. -/
inductive LivelinessPolicy where
  | systemDefault
  | automatic
  | manualByTopic
  | unknown
  deriving DecidableEq

/-- Modelled from the spec: the rmw reliability policy enumeration. -/
inductive ReliabilityPolicy where
  | systemDefault
  | reliable
  | bestEffort
  | unknown
  deriving DecidableEq

/-- Modelled from the spec: `rmw_qos_durability_policy_to_str`, the pure
forward lookup `enum_value -> string | none` (NULL for unmapped values). -/
def rmw_qos_durability_policy_to_str : DurabilityPolicy → Option String
  | .systemDefault => some "system_default"
  | .transientLocal => some "transient_local"
  | .volatile => some "volatile"
  | .unknown => none

/-- Modelled from the spec: `rmw_qos_durability_policy_from_str`, the
reverse lookup `string -> enum_value | unknown`. -/
def rmw_qos_durability_policy_from_str (s : String) : DurabilityPolicy :=
  if s = "system_default" then .systemDefault
  else if s = "transient_local" then .transientLocal
  else if s = "volatile" then .volatile
  else .unknown

/-- Modelled from the spec: `rmw_qos_history_policy_to_str`. -/
def rmw_qos_history_policy_to_str : HistoryPolicy → Option String
  | .systemDefault => some "system_default"
  | .keepLast => some "keep_last"
  | .keepAll => some "keep_all"
  | .unknown => none

/-- Modelled from the spec: `rmw_qos_history_policy_from_str`. -/
def rmw_qos_history_policy_from_str (s : String) : HistoryPolicy :=
  if s = "system_default" then .systemDefault
  else if s = "keep_last" then .keepLast
  else if s = "keep_all" then .keepAll
  else .unknown

/-- Modelled from the spec: `rmw_qos_liveliness_policy_to_str`. -/
def rmw_qos_liveliness_policy_to_str : LivelinessPolicy → Option String
  | .systemDefault => some "system_default"
  | .automatic => some "automatic"
  | .manualByTopic => some "manual_by_topic"
  | .unknown => none

/-- Modelled from the spec: `rmw_qos_liveliness_policy_from_str`. -/
def rmw_qos_liveliness_policy_from_str (s : String) : LivelinessPolicy :=
  if s = "system_default" then .systemDefault
  else if s = "automatic" then .automatic
  else if s = "manual_by_topic" then .manualByTopic
  else .unknown

/-- Modelled from the spec: `rmw_qos_reliability_policy_to_str`. -/
def rmw_qos_reliability_policy_to_str : ReliabilityPolicy → Option String
  | .systemDefault => some "system_default"
  | .reliable => some "reliable"
  | .bestEffort => some "best_effort"
  | .unknown => none

/-- Modelled from the spec: `rmw_qos_reliability_policy_from_str`. -/
def rmw_qos_reliability_policy_from_str (s : String) : ReliabilityPolicy :=
  if s = "system_default" then .systemDefault
  else if s = "reliable" then .reliable
  else if s = "best_effort" then .bestEffort
  else .unknown

/-- `rclcpp::QosPolicyKind`: the closed 9-member policy-kind enumeration
(spec section 3). The source's `default:` switch arms are unreachable with
a closed inductive and are dropped, as the spec's design note suggests. -/
inductive QosPolicyKind where
  | AvoidRosNamespaceConventions
  | Deadline
  | Durability
  | History
  | Depth
  | Lifespan
  | Liveliness
  | LivelinessLeaseDuration
  | Reliability
  deriving DecidableEq

/-- Modelled from the spec: `rmw_time_t`, a pair of unsigned 64-bit
seconds and nanoseconds counters (the native duration representation,
spec section 3). Fields are `Nat`; uses apply `% 2^32` / `% 2^64`
explicitly where the source casts. -/
structure RmwTime where
  sec : Nat
  nsec : Nat
  deriving DecidableEq

/-- Modelled from the spec: the `rmw_qos_profile_t` view of a
`rclcpp::QoS` profile — one named slot per policy kind
(spec section 3, QosProfile). -/
structure RmwQosProfile where
  avoid_ros_namespace_conventions : Bool
  deadline : RmwTime
  durability : DurabilityPolicy
  history : HistoryPolicy
  depth : Nat
  lifespan : RmwTime
  liveliness : LivelinessPolicy
  liveliness_lease_duration : RmwTime
  reliability : ReliabilityPolicy
  deriving DecidableEq

/-- Error taxonomy of the fragment (spec section 7). `invalidParameterType`
is `rclcpp::ParameterTypeException` thrown by `ParameterValue::get<T>()`;
`unknownPolicyValue` is the `std::invalid_argument` of
`RCLCPP_DETAIL_QOS_POLICY_FROM_PARAMETER_STRING`; `valueConversion` is the
`std::invalid_argument` of `check_if_stringified_policy_is_null`;
`invalidProfile` is `rclcpp::exceptions::InvalidQosOverridesException`;
`negativeDuration` is the error of the external duration type on a
negative nanosecond count; `storeError` is a store-originated declaration
failure propagated verbatim. -/
inductive QosError where
  | invalidParameterType
  | unknownPolicyValue (kind : QosPolicyKind) (value : String)
  | valueConversion (kind : QosPolicyKind)
  | invalidProfile (msg : String)
  | negativeDuration
  | storeError (msg : String)
  deriving DecidableEq

/-- `rclcpp::ParameterValue` restricted to the three variants this core
constructs (spec section 3, ParameterValue). -/
inductive ParameterValue where
  | bool (b : Bool)
  | int (i : Int)
  | str (s : String)
  deriving DecidableEq

/-- `ParameterValue::get<bool>()`: the boolean variant or a
`ParameterTypeException`. -/
def ParameterValue.get_bool : ParameterValue → Except QosError Bool
  | .bool b => .ok b
  | _ => .error .invalidParameterType

/-- `ParameterValue::get<int64_t>()`. -/
def ParameterValue.get_int : ParameterValue → Except QosError Int
  | .int i => .ok i
  | _ => .error .invalidParameterType

/-- `ParameterValue::get<std::string>()`. -/
def ParameterValue.get_string : ParameterValue → Except QosError String
  | .str s => .ok s
  | _ => .error .invalidParameterType

/-- `static_cast<int32_t>` applied to a `uint64_t` value: keep the low 32
bits, reinterpreted as a signed two's-complement value. -/
def int32_cast_of_uint64 (n : Nat) : Int :=
  let r := n % 4294967296
  if r < 2147483648 then (r : Int) else (r : Int) - 4294967296

/-- `static_cast<uint32_t>` applied to a `uint64_t` value. -/
def uint32_cast_of_uint64 (n : Nat) : Nat :=
  n % 4294967296

/-- `static_cast<int64_t>` applied to a `size_t` (`uint64_t`) value. -/
def int64_cast_of_uint64 (n : Nat) : Int :=
  let r := n % 18446744073709551616
  if r < 9223372036854775808 then (r : Int) else (r : Int) - 18446744073709551616

/-- `static_cast<size_t>` applied to an `int64_t` value:
two's-complement wraparound into `[0, 2^64)`. -/
def size_t_cast_of_int64 (i : Int) : Nat :=
  (i % 18446744073709551616).toNat

/-- `rmw_duration_to_int64_t` (qos_parameters.hpp, lines 239-247):
`rclcpp::Duration(static_cast<int32_t>(sec), static_cast<uint32_t>(nsec)).nanoseconds()`.
The external `rclcpp::Duration` holds `sec * 10^9 + nsec` signed 64-bit
nanoseconds (spec section 3: durations are signed 64-bit nanosecond
counts); the narrowing casts are the source's. -/
def rmw_duration_to_int64_t (rmw_duration : RmwTime) : Int :=
  int32_cast_of_uint64 rmw_duration.sec * 1000000000 +
    (uint32_cast_of_uint64 rmw_duration.nsec : Int)

/-- Modelled from the spec: writing a `rclcpp::Duration` built from a
nanosecond count back into an `rmw_time_t` slot of the profile (the
external duration type of spec section 6; per spec section 8 a
1000000000 ns override becomes a one-second duration, so the count is
split into whole seconds and remaining nanoseconds). A negative count
cannot be represented in the unsigned pair and is rejected. -/
def duration_to_rmw_time (ns : Int) : Except QosError RmwTime :=
  if ns < 0 then .error .negativeDuration
  else .ok ⟨ns.toNat / 1000000000, ns.toNat % 1000000000⟩

/-- `apply_qos_override` (qos_parameters.hpp, lines 196-236): modify the
given `policy` slot of `qos` to hold `value`. The four string-enum arms
are the expansion of `RCLCPP_DETAIL_QOS_POLICY_FROM_PARAMETER_STRING`
(lines 185-194): read the string variant, run the reverse lookup, fail
on the unknown value, otherwise write through the accessor. -/
def apply_qos_override (policy : QosPolicyKind) (value : ParameterValue)
    (qos : RmwQosProfile) : Except QosError RmwQosProfile :=
  match policy with
  | .AvoidRosNamespaceConventions =>
    match value.get_bool with
    | .ok b => .ok { qos with avoid_ros_namespace_conventions := b }
    | .error e => .error e
  | .Deadline =>
    match value.get_int with
    | .ok ns =>
      match duration_to_rmw_time ns with
      | .ok t => .ok { qos with deadline := t }
      | .error e => .error e
    | .error e => .error e
  | .Durability =>
    match value.get_string with
    | .ok policy_string =>
      let policy_value := rmw_qos_durability_policy_from_str policy_string
      if policy_value = DurabilityPolicy.unknown then
        .error (.unknownPolicyValue .Durability policy_string)
      else
        .ok { qos with durability := policy_value }
    | .error e => .error e
  | .History =>
    match value.get_string with
    | .ok policy_string =>
      let policy_value := rmw_qos_history_policy_from_str policy_string
      if policy_value = HistoryPolicy.unknown then
        .error (.unknownPolicyValue .History policy_string)
      else
        .ok { qos with history := policy_value }
    | .error e => .error e
  | .Depth =>
    match value.get_int with
    | .ok i => .ok { qos with depth := size_t_cast_of_int64 i }
    | .error e => .error e
  | .Lifespan =>
    match value.get_int with
    | .ok ns =>
      match duration_to_rmw_time ns with
      | .ok t => .ok { qos with lifespan := t }
      | .error e => .error e
    | .error e => .error e
  | .Liveliness =>
    match value.get_string with
    | .ok policy_string =>
      let policy_value := rmw_qos_liveliness_policy_from_str policy_string
      if policy_value = LivelinessPolicy.unknown then
        .error (.unknownPolicyValue .Liveliness policy_string)
      else
        .ok { qos with liveliness := policy_value }
    | .error e => .error e
  | .LivelinessLeaseDuration =>
    match value.get_int with
    | .ok ns =>
      match duration_to_rmw_time ns with
      | .ok t => .ok { qos with liveliness_lease_duration := t }
      | .error e => .error e
    | .error e => .error e
  | .Reliability =>
    match value.get_string with
    | .ok policy_string =>
      let policy_value := rmw_qos_reliability_policy_from_str policy_string
      if policy_value = ReliabilityPolicy.unknown then
        .error (.unknownPolicyValue .Reliability policy_string)
      else
        .ok { qos with reliability := policy_value }
    | .error e => .error e

/-- `check_if_stringified_policy_is_null` (qos_parameters.hpp, lines
249-260): fail with the conversion error if the forward lookup returned
NULL, otherwise pass the string through. -/
def check_if_stringified_policy_is_null (policy_value_stringified : Option String)
    (kind : QosPolicyKind) : Except QosError String :=
  match policy_value_stringified with
  | none => .error (.valueConversion kind)
  | some s => .ok s

/-- `get_default_qos_param_value` (qos_parameters.hpp, lines 262-298):
the given `policy` slot of the profile `qos` converted to a parameter
value. -/
def get_default_qos_param_value (qpk : QosPolicyKind) (qos : RmwQosProfile) :
    Except QosError ParameterValue :=
  match qpk with
  | .AvoidRosNamespaceConventions =>
    .ok (.bool qos.avoid_ros_namespace_conventions)
  | .Deadline =>
    .ok (.int (rmw_duration_to_int64_t qos.deadline))
  | .Durability =>
    match check_if_stringified_policy_is_null
        (rmw_qos_durability_policy_to_str qos.durability) qpk with
    | .ok s => .ok (.str s)
    | .error e => .error e
  | .History =>
    match check_if_stringified_policy_is_null
        (rmw_qos_history_policy_to_str qos.history) qpk with
    | .ok s => .ok (.str s)
    | .error e => .error e
  | .Depth =>
    .ok (.int (int64_cast_of_uint64 qos.depth))
  | .Lifespan =>
    .ok (.int (rmw_duration_to_int64_t qos.lifespan))
  | .Liveliness =>
    match check_if_stringified_policy_is_null
        (rmw_qos_liveliness_policy_to_str qos.liveliness) qpk with
    | .ok s => .ok (.str s)
    | .error e => .error e
  | .LivelinessLeaseDuration =>
    .ok (.int (rmw_duration_to_int64_t qos.liveliness_lease_duration))
  | .Reliability =>
    match check_if_stringified_policy_is_null
        (rmw_qos_reliability_policy_to_str qos.reliability) qpk with
    | .ok s => .ok (.str s)
    | .error e => .error e

/-- Modelled from the spec: `rclcpp::qos_policy_kind_to_cstr` (declared
in the included `qos_overriding_options.hpp`, implemented outside the
fragment). Spec section 4.2: stringified kind names exactly match the
tokens of the reverse string lookups (durability/history/liveliness/
reliability); section 8 fixes `Depth ↦ "depth"`. -/
def qos_policy_kind_to_cstr : QosPolicyKind → String
  | .AvoidRosNamespaceConventions => "avoid_ros_namespace_conventions"
  | .Deadline => "deadline"
  | .Durability => "durability"
  | .History => "history"
  | .Depth => "depth"
  | .Lifespan => "lifespan"
  | .Liveliness => "liveliness"
  | .LivelinessLeaseDuration => "liveliness_lease_duration"
  | .Reliability => "reliability"

/-- The traits interface of `declare_qos_parameters`: an entity-type tag
and the catalog of allowed policy kinds. -/
structure EntityQosParametersTraits where
  entity_type : String
  allowed_policies : List QosPolicyKind
  deriving DecidableEq

/-- `PublisherQosParametersTraits` (qos_parameters.hpp, lines 40-57). -/
def PublisherQosParametersTraits : EntityQosParametersTraits :=
  { entity_type := "publisher"
    allowed_policies :=
      [ .AvoidRosNamespaceConventions
      , .Deadline
      , .Durability
      , .History
      , .Depth
      , .Lifespan
      , .Liveliness
      , .LivelinessLeaseDuration
      , .Reliability ] }

/-- `SubscriptionQosParametersTraits` (qos_parameters.hpp, lines 60-76). -/
def SubscriptionQosParametersTraits : EntityQosParametersTraits :=
  { entity_type := "subscription"
    allowed_policies :=
      [ .AvoidRosNamespaceConventions
      , .Deadline
      , .Durability
      , .History
      , .Depth
      , .Liveliness
      , .LivelinessLeaseDuration
      , .Reliability ] }

/-- `rclcpp::QosOverridingOptions` (spec section 3, OverrideOptions): a
disambiguating id, the requested policy-kind set, and an optional
validation callback. -/
structure QosOverridingOptions where
  id : String
  policy_kinds : List QosPolicyKind
  validation_callback : Option (RmwQosProfile → Bool)

/-- One parameter declaration handed to the external parameter store:
name, default value, descriptor description, read-only flag. -/
structure DeclaredParam where
  name : String
  default_value : ParameterValue
  description : String
  read_only : Bool
  deriving DecidableEq

/-- The parameter name built by `declare_qos_parameters` (lines 144-153
build the topic/entity/id part, lines 167-168 append the stringified
kind): `param_prefix_part ++ "." ++ qos_policy_kind_to_cstr policy` where
the first part is `"qos_overrides." << topic << "." << entity_type`
followed by `"_" << id` when the id is non-empty. -/
def qos_parameter_name (topic_name entity_type id : String)
    (policy : QosPolicyKind) : String :=
  let part1 := "qos_overrides." ++ topic_name ++ "." ++ entity_type
  let part2 := if id = "" then part1 else part1 ++ "_" ++ id
  (part2 ++ ".") ++ qos_policy_kind_to_cstr policy

/-- The parameter description built by `declare_qos_parameters` (lines
154-162 build the suffix, lines 169-170 prepend the policy part). The
braces of the source string literals are written with escapes. -/
def qos_parameter_description (topic_name entity_type id : String)
    (policy : QosPolicyKind) : String :=
  let suffix1 := "\x7d for " ++ entity_type ++ " \x7b" ++ topic_name ++ "\x7d"
  let suffix2 := if id = "" then suffix1
    else suffix1 ++ " with id \x7b" ++ id ++ "\x7d"
  ("qos policy \x7b" ++ qos_policy_kind_to_cstr policy) ++ suffix2

/-- The body of the `for` loop of `declare_qos_parameters` (lines
163-177) for one policy kind: when the kind is requested
(`std::count(...)` non-zero), build name and descriptor, convert the
profile's current value to the default, ask the store for the effective
value, and apply it back to the profile, accumulating the declaration. -/
def declare_qos_parameters_step (traits : EntityQosParametersTraits)
    (options : QosOverridingOptions)
    (store : String → ParameterValue → Except QosError ParameterValue)
    (topic_name : String) (st : RmwQosProfile × List DeclaredParam)
    (policy : QosPolicyKind) : Except QosError (RmwQosProfile × List DeclaredParam) :=
  if options.policy_kinds.count policy ≠ 0 then
    let param_name := qos_parameter_name topic_name traits.entity_type options.id policy
    let param_description :=
      qos_parameter_description topic_name traits.entity_type options.id policy
    match get_default_qos_param_value policy st.1 with
    | .error e => .error e
    | .ok default_value =>
      match store param_name default_value with
      | .error e => .error e
      | .ok value =>
        match apply_qos_override policy value st.1 with
        | .error e => .error e
        | .ok qos =>
          .ok (qos, st.2 ++ [⟨param_name, default_value, param_description, true⟩])
  else .ok st

/-- The catalog loop of `declare_qos_parameters` (lines 163-178): one
pass over `allowed_policies()` in catalog order, threading the profile
and the list of declared parameters. -/
def declare_qos_parameters_loop (traits : EntityQosParametersTraits)
    (options : QosOverridingOptions)
    (store : String → ParameterValue → Except QosError ParameterValue)
    (topic_name : String) (qos : RmwQosProfile) :
    Except QosError (RmwQosProfile × List DeclaredParam) :=
  traits.allowed_policies.foldlM
    (declare_qos_parameters_step traits options store topic_name) (qos, [])

/-- `declare_qos_parameters` (qos_parameters.hpp, lines 135-182): the
catalog loop followed by the validation-callback check (lines 179-181).
The external parameter store is the function `store` from name and
default value to the effective value (spec section 6); its failures
propagate verbatim. -/
def declare_qos_parameters (traits : EntityQosParametersTraits)
    (options : QosOverridingOptions)
    (store : String → ParameterValue → Except QosError ParameterValue)
    (topic_name : String) (qos : RmwQosProfile) :
    Except QosError (RmwQosProfile × List DeclaredParam) :=
  match declare_qos_parameters_loop traits options store topic_name qos with
  | .error e => .error e
  | .ok (qos, declared) =>
    match options.validation_callback with
    | some cb =>
      if cb qos then .ok (qos, declared)
      else .error (.invalidProfile "validation callback failed")
    | none => .ok (qos, declared)

/-- Modelled from the spec: `rmw_qos_profile_default`, a concrete valid
profile (keep-last history of depth 10, reliable, volatile, zero
durations) used as a fixture in closed statements. -/
def rmw_qos_profile_default : RmwQosProfile :=
  { avoid_ros_namespace_conventions := false
    deadline := ⟨0, 0⟩
    durability := .volatile
    history := .keepLast
    depth := 10
    lifespan := ⟨0, 0⟩
    liveliness := .systemDefault
    liveliness_lease_duration := ⟨0, 0⟩
    reliability := .reliable }

/-- The four string-enum policy kinds (spec section 3). -/
def string_enum_kinds : List QosPolicyKind :=
  [.Durability, .History, .Liveliness, .Reliability]

/-- The three duration policy kinds (spec section 3). -/
def duration_kinds : List QosPolicyKind :=
  [.Deadline, .Lifespan, .LivelinessLeaseDuration]

/-- The `rmw_time_t` slot of the profile read by the duration arms of
`get_default_qos_param_value`; `⟨0, 0⟩` for non-duration kinds. -/
def duration_at (k : QosPolicyKind) (p : RmwQosProfile) : RmwTime :=
  match k with
  | .Deadline => p.deadline
  | .Lifespan => p.lifespan
  | .LivelinessLeaseDuration => p.liveliness_lease_duration
  | _ => ⟨0, 0⟩

/-- The forward string lookup used by `get_default_qos_param_value` for
a string-enum kind, applied to the profile's current enum value; `none`
for other kinds. -/
def stringified_policy_at (k : QosPolicyKind) (p : RmwQosProfile) : Option String :=
  match k with
  | .Durability => rmw_qos_durability_policy_to_str p.durability
  | .History => rmw_qos_history_policy_to_str p.history
  | .Liveliness => rmw_qos_liveliness_policy_to_str p.liveliness
  | .Reliability => rmw_qos_reliability_policy_to_str p.reliability
  | _ => none

/-- The reverse string lookup used by the string-enum arms of
`apply_qos_override` maps `s` to the unknown enum value; `False` for
non-string-enum kinds. -/
def reverse_lookup_is_unknown (k : QosPolicyKind) (s : String) : Prop :=
  match k with
  | .Durability => rmw_qos_durability_policy_from_str s = .unknown
  | .History => rmw_qos_history_policy_from_str s = .unknown
  | .Liveliness => rmw_qos_liveliness_policy_from_str s = .unknown
  | .Reliability => rmw_qos_reliability_policy_from_str s = .unknown
  | _ => False

instance (k : QosPolicyKind) (s : String) : Decidable (reverse_lookup_is_unknown k s) := by
  unfold reverse_lookup_is_unknown
  cases k <;> infer_instance

/-- Two profiles agree on the slot owned by policy kind `k`. -/
def same_at_kind (k : QosPolicyKind) (a b : RmwQosProfile) : Prop :=
  match k with
  | .AvoidRosNamespaceConventions =>
    a.avoid_ros_namespace_conventions = b.avoid_ros_namespace_conventions
  | .Deadline => a.deadline = b.deadline
  | .Durability => a.durability = b.durability
  | .History => a.history = b.history
  | .Depth => a.depth = b.depth
  | .Lifespan => a.lifespan = b.lifespan
  | .Liveliness => a.liveliness = b.liveliness
  | .LivelinessLeaseDuration => a.liveliness_lease_duration = b.liveliness_lease_duration
  | .Reliability => a.reliability = b.reliability

instance (k : QosPolicyKind) (a b : RmwQosProfile) : Decidable (same_at_kind k a b) := by
  unfold same_at_kind
  cases k <;> infer_instance

/-- The claim's validity condition on a profile: every string-enum slot
has a canonical string representation. -/
def profile_enum_values_stringify (p : RmwQosProfile) : Bool :=
  (rmw_qos_durability_policy_to_str p.durability).isSome &&
  (rmw_qos_history_policy_to_str p.history).isSome &&
  (rmw_qos_liveliness_policy_to_str p.liveliness).isSome &&
  (rmw_qos_reliability_policy_to_str p.reliability).isSome

/-- A duration pair that survives the narrowing casts of
`rmw_duration_to_int64_t` and re-splitting: normalized nanoseconds and
seconds below `2^31`. -/
def rmw_time_in_range (t : RmwTime) : Bool :=
  decide (t.sec < 2147483648) && decide (t.nsec < 1000000000)

/-- All three duration slots of the profile are in range. -/
def profile_durations_in_range (p : RmwQosProfile) : Bool :=
  rmw_time_in_range p.deadline && rmw_time_in_range p.lifespan &&
    rmw_time_in_range p.liveliness_lease_duration

/-- The variant tag of a `ParameterValue`. -/
inductive ParamValueType where
  | bool
  | int
  | str
  deriving DecidableEq

/-- The variant a `ParameterValue` holds. -/
def param_value_type : ParameterValue → ParamValueType
  | .bool _ => .bool
  | .int _ => .int
  | .str _ => .str

/-- The variant each policy kind requires of its parameter value
(`get<bool>` / `get<int64_t>` / `get<std::string>` in
`apply_qos_override`). -/
def required_param_type : QosPolicyKind → ParamValueType
  | .AvoidRosNamespaceConventions => .bool
  | .Deadline => .int
  | .Durability => .str
  | .History => .str
  | .Depth => .int
  | .Lifespan => .int
  | .Liveliness => .str
  | .LivelinessLeaseDuration => .int
  | .Reliability => .str

/-- A parameter store that accepts every declaration and returns the
default value unchanged, used in closed statements. -/
def pass_through_store : String → ParameterValue → Except QosError ParameterValue :=
  fun _ v => .ok v

/-- Splitting a normalized, int32-range duration pair into nanoseconds
and back is the identity. -/
theorem duration_roundtrip (t : RmwTime) (h : rmw_time_in_range t = true) :
    duration_to_rmw_time (rmw_duration_to_int64_t t) = .ok t := by
  obtain ⟨sec, nsec⟩ := t
  simp only [rmw_time_in_range, Bool.and_eq_true, decide_eq_true_eq] at h
  obtain ⟨h1, h2⟩ := h
  unfold duration_to_rmw_time rmw_duration_to_int64_t int32_cast_of_uint64 uint32_cast_of_uint64
  simp only []
  rw [Nat.mod_eq_of_lt (by omega), Nat.mod_eq_of_lt (by omega)]
  rw [if_pos h1, if_neg (by omega)]
  simp only [Except.ok.injEq, RmwTime.mk.injEq]
  omega

/-- The durability reverse lookup inverts the forward lookup on every
value with a canonical string. -/
theorem durability_from_to_str (v : DurabilityPolicy) (s : String)
    (h : rmw_qos_durability_policy_to_str v = some s) :
    rmw_qos_durability_policy_from_str s = v ∧ v ≠ .unknown := by
  cases v <;> simp only [rmw_qos_durability_policy_to_str] at h
  case unknown => exact Option.noConfusion h
  all_goals (injection h with h; subst h; decide)

/-- The history reverse lookup inverts the forward lookup. -/
theorem history_from_to_str (v : HistoryPolicy) (s : String)
    (h : rmw_qos_history_policy_to_str v = some s) :
    rmw_qos_history_policy_from_str s = v ∧ v ≠ .unknown := by
  cases v <;> simp only [rmw_qos_history_policy_to_str] at h
  case unknown => exact Option.noConfusion h
  all_goals (injection h with h; subst h; decide)

/-- The liveliness reverse lookup inverts the forward lookup. -/
theorem liveliness_from_to_str (v : LivelinessPolicy) (s : String)
    (h : rmw_qos_liveliness_policy_to_str v = some s) :
    rmw_qos_liveliness_policy_from_str s = v ∧ v ≠ .unknown := by
  cases v <;> simp only [rmw_qos_liveliness_policy_to_str] at h
  case unknown => exact Option.noConfusion h
  all_goals (injection h with h; subst h; decide)

/-- The reliability reverse lookup inverts the forward lookup. -/
theorem reliability_from_to_str (v : ReliabilityPolicy) (s : String)
    (h : rmw_qos_reliability_policy_to_str v = some s) :
    rmw_qos_reliability_policy_from_str s = v ∧ v ≠ .unknown := by
  cases v <;> simp only [rmw_qos_reliability_policy_to_str] at h
  case unknown => exact Option.noConfusion h
  all_goals (injection h with h; subst h; decide)

/-- The `size_t → int64 → size_t` cast round-trip is the identity on
every value representable in 64 bits. -/
theorem size_t_int64_roundtrip (n : Nat) (h : n < 18446744073709551616) :
    size_t_cast_of_int64 (int64_cast_of_uint64 n) = n := by
  unfold size_t_cast_of_int64 int64_cast_of_uint64
  by_cases hlt : n % 18446744073709551616 < 9223372036854775808 <;>
    simp [hlt] <;> omega

/-- On an int32-range duration pair the narrowing casts of
`rmw_duration_to_int64_t` are lossless and the result is
`sec * 10^9 + nsec`. -/
theorem rmw_duration_to_int64_t_eq (t : RmwTime) (hsec : t.sec < 2147483648)
    (hnsec : t.nsec < 4294967296) :
    rmw_duration_to_int64_t t = ((t.sec * 1000000000 + t.nsec : Nat) : Int) := by
  obtain ⟨sec, nsec⟩ := t
  simp only at hsec hnsec
  unfold rmw_duration_to_int64_t int32_cast_of_uint64 uint32_cast_of_uint64
  simp only []
  rw [Nat.mod_eq_of_lt (by omega), Nat.mod_eq_of_lt (by omega), if_pos hsec]
  push_cast
  ring

/-- C1 (amended): for every policy kind in the publisher catalog and
every valid profile whose duration slots are normalized
(`nsec < 10^9`) with seconds below `2^31` and whose depth fits
`size_t`, encoding the profile's current value for the kind and
applying it back succeeds and is the identity on that kind. -/
theorem C1_roundtrip (k : QosPolicyKind) (p : RmwQosProfile)
    (hk : k ∈ PublisherQosParametersTraits.allowed_policies)
    (hvalid : profile_enum_values_stringify p = true)
    (hdur : profile_durations_in_range p = true)
    (hdepth : p.depth < 18446744073709551616) :
    ∃ v q, get_default_qos_param_value k p = .ok v ∧
      apply_qos_override k v p = .ok q ∧ same_at_kind k q p := by
  simp only [profile_enum_values_stringify, Bool.and_eq_true, Option.isSome_iff_exists]
    at hvalid
  simp only [profile_durations_in_range, Bool.and_eq_true] at hdur
  cases k
  case AvoidRosNamespaceConventions =>
    exact ⟨.bool p.avoid_ros_namespace_conventions, p, rfl, rfl, rfl⟩
  case Deadline =>
    refine ⟨.int (rmw_duration_to_int64_t p.deadline), p, rfl, ?_, rfl⟩
    simp [apply_qos_override, ParameterValue.get_int, duration_roundtrip p.deadline hdur.1.1]
  case Durability =>
    obtain ⟨s, hs⟩ := hvalid.1.1.1
    obtain ⟨hfs, hne⟩ := durability_from_to_str p.durability s hs
    refine ⟨.str s, p, ?_, ?_, rfl⟩
    · simp [get_default_qos_param_value, hs, check_if_stringified_policy_is_null]
    · simp [apply_qos_override, ParameterValue.get_string, hfs, hne]
  case History =>
    obtain ⟨s, hs⟩ := hvalid.1.1.2
    obtain ⟨hfs, hne⟩ := history_from_to_str p.history s hs
    refine ⟨.str s, p, ?_, ?_, rfl⟩
    · simp [get_default_qos_param_value, hs, check_if_stringified_policy_is_null]
    · simp [apply_qos_override, ParameterValue.get_string, hfs, hne]
  case Depth =>
    refine ⟨.int (int64_cast_of_uint64 p.depth), p, rfl, ?_, rfl⟩
    simp [apply_qos_override, ParameterValue.get_int, size_t_int64_roundtrip p.depth hdepth]
  case Lifespan =>
    refine ⟨.int (rmw_duration_to_int64_t p.lifespan), p, rfl, ?_, rfl⟩
    simp [apply_qos_override, ParameterValue.get_int, duration_roundtrip p.lifespan hdur.1.2]
  case Liveliness =>
    obtain ⟨s, hs⟩ := hvalid.1.2
    obtain ⟨hfs, hne⟩ := liveliness_from_to_str p.liveliness s hs
    refine ⟨.str s, p, ?_, ?_, rfl⟩
    · simp [get_default_qos_param_value, hs, check_if_stringified_policy_is_null]
    · simp [apply_qos_override, ParameterValue.get_string, hfs, hne]
  case LivelinessLeaseDuration =>
    refine ⟨.int (rmw_duration_to_int64_t p.liveliness_lease_duration), p, rfl, ?_, rfl⟩
    simp [apply_qos_override, ParameterValue.get_int,
      duration_roundtrip p.liveliness_lease_duration hdur.2]
  case Reliability =>
    obtain ⟨s, hs⟩ := hvalid.2
    obtain ⟨hfs, hne⟩ := reliability_from_to_str p.reliability s hs
    refine ⟨.str s, p, ?_, ?_, rfl⟩
    · simp [get_default_qos_param_value, hs, check_if_stringified_policy_is_null]
    · simp [apply_qos_override, ParameterValue.get_string, hfs, hne]

/-- Witness for C1 (amended): the round trip at kind Deadline on the
default profile. -/
theorem C1_roundtrip_witness :
    QosPolicyKind.Deadline ∈ PublisherQosParametersTraits.allowed_policies ∧
    profile_enum_values_stringify rmw_qos_profile_default = true ∧
    profile_durations_in_range rmw_qos_profile_default = true ∧
    rmw_qos_profile_default.depth < 18446744073709551616 ∧
    ∃ v q, get_default_qos_param_value .Deadline rmw_qos_profile_default = .ok v ∧
      apply_qos_override .Deadline v rmw_qos_profile_default = .ok q ∧
      same_at_kind .Deadline q rmw_qos_profile_default :=
  ⟨by decide, by decide, by decide, by decide,
    C1_roundtrip .Deadline rmw_qos_profile_default (by decide) (by decide)
      (by decide) (by decide)⟩

/-- Counterexample to C1 as stated: the profile with Deadline slot
`{sec := 2^32, nsec := 0}` is valid in the claim's sense (every
string-enum slot stringifies), yet encoding the Deadline slot gives 0
nanoseconds — `static_cast<int32_t>` in `rmw_duration_to_int64_t`
drops the high bits of the seconds counter — and applying that back
leaves the slot `{0, 0} ≠ {2^32, 0}`. -/
theorem C1_counterexample :
    profile_enum_values_stringify
      { rmw_qos_profile_default with deadline := ⟨4294967296, 0⟩ } = true ∧
    get_default_qos_param_value .Deadline
      { rmw_qos_profile_default with deadline := ⟨4294967296, 0⟩ } = .ok (.int 0) ∧
    apply_qos_override .Deadline (.int 0)
      { rmw_qos_profile_default with deadline := ⟨4294967296, 0⟩ } =
      .ok { rmw_qos_profile_default with deadline := ⟨0, 0⟩ } ∧
    ¬ same_at_kind .Deadline { rmw_qos_profile_default with deadline := ⟨0, 0⟩ }
      { rmw_qos_profile_default with deadline := ⟨4294967296, 0⟩ } :=
  ⟨by decide, by decide, by decide, by decide⟩

/-- C8 (amended): for every duration kind, when the stored pair has
seconds below `2^31` and nanoseconds below `2^32`,
`get_default_qos_param_value` returns the int64 variant holding
`sec * 10^9 + nsec`; a Deadline override of 1000000000 ns round-trips
through the one-second duration `{1, 0}`, and a Depth override of 5
reads back as 5. -/
theorem C8_duration_encoding (k : QosPolicyKind) (p : RmwQosProfile)
    (hk : k ∈ duration_kinds)
    (hsec : (duration_at k p).sec < 2147483648)
    (hnsec : (duration_at k p).nsec < 4294967296) :
    get_default_qos_param_value k p =
      .ok (.int ((duration_at k p).sec * 1000000000 + (duration_at k p).nsec : Nat)) ∧
    apply_qos_override .Deadline (.int 1000000000) rmw_qos_profile_default =
      .ok { rmw_qos_profile_default with deadline := ⟨1, 0⟩ } ∧
    get_default_qos_param_value .Deadline
      { rmw_qos_profile_default with deadline := ⟨1, 0⟩ } = .ok (.int 1000000000) ∧
    apply_qos_override .Depth (.int 5) rmw_qos_profile_default =
      .ok { rmw_qos_profile_default with depth := 5 } ∧
    get_default_qos_param_value .Depth { rmw_qos_profile_default with depth := 5 } =
      .ok (.int 5) := by
  refine ⟨?_, by decide, by decide, by decide, by decide⟩
  cases k
  case Deadline =>
    simp only [get_default_qos_param_value, duration_at]
    rw [rmw_duration_to_int64_t_eq p.deadline hsec hnsec]
  case Lifespan =>
    simp only [get_default_qos_param_value, duration_at]
    rw [rmw_duration_to_int64_t_eq p.lifespan hsec hnsec]
  case LivelinessLeaseDuration =>
    simp only [get_default_qos_param_value, duration_at]
    rw [rmw_duration_to_int64_t_eq p.liveliness_lease_duration hsec hnsec]
  all_goals exact absurd hk (by decide)

/-- Witness for C8 (amended): a Lifespan slot of 3 s 500 ns encodes as
3000000500 ns. -/
theorem C8_duration_encoding_witness :
    QosPolicyKind.Lifespan ∈ duration_kinds ∧
    (duration_at .Lifespan
      { rmw_qos_profile_default with lifespan := ⟨3, 500⟩ }).sec < 2147483648 ∧
    (duration_at .Lifespan
      { rmw_qos_profile_default with lifespan := ⟨3, 500⟩ }).nsec < 4294967296 ∧
    get_default_qos_param_value .Lifespan
      { rmw_qos_profile_default with lifespan := ⟨3, 500⟩ } = .ok (.int 3000000500) :=
  ⟨by decide, by decide, by decide,
    (C8_duration_encoding .Lifespan { rmw_qos_profile_default with lifespan := ⟨3, 500⟩ }
      (by decide) (by decide) (by decide)).1⟩

/-- Counterexample to C8 as stated: a Deadline pair
`{sec := 2^31, nsec := 0}` is encoded as the negative count
`-2^31 * 10^9`, not as `sec * 10^9 + nsec`: the seconds counter wraps
through `static_cast<int32_t>`. -/
theorem C8_counterexample :
    get_default_qos_param_value .Deadline
      { rmw_qos_profile_default with deadline := ⟨2147483648, 0⟩ } =
      .ok (.int (-2147483648000000000)) ∧
    (-2147483648000000000 : Int) ≠ ((2147483648 * 1000000000 + 0 : Nat) : Int) :=
  ⟨by decide, by decide⟩

/-- C5: the publisher catalog contains exactly 9 policy kinds — all
members of the enumeration — and the subscriber catalog contains
exactly 8 kinds, every kind except Lifespan. -/
theorem C5_catalogs :
    PublisherQosParametersTraits.allowed_policies.length = 9 ∧
    (∀ k : QosPolicyKind, k ∈ PublisherQosParametersTraits.allowed_policies) ∧
    SubscriptionQosParametersTraits.allowed_policies.length = 8 ∧
    (∀ k : QosPolicyKind,
      k ∈ SubscriptionQosParametersTraits.allowed_policies ↔ k ≠ QosPolicyKind.Lifespan) := by
  refine ⟨rfl, fun k => ?_, rfl, fun k => ?_⟩ <;> cases k <;> decide

/-- C2: the parameter name declared by `declare_qos_parameters` equals
`"qos_overrides." + topic + "." + entity_type_tag + ("_" + id` when the
id is non-empty`) + "." + stringified kind`; for topic `"chatter"`,
publisher entity, empty id and kind Depth the name is
`"qos_overrides.chatter.publisher.depth"`, and with id `"sensor"` it is
`"qos_overrides.chatter.publisher_sensor.depth"`. -/
theorem C2_parameter_name (topic_name entity_type id : String) (k : QosPolicyKind) :
    qos_parameter_name topic_name entity_type id k =
      "qos_overrides." ++ topic_name ++ "." ++ entity_type ++
        (if id = "" then "" else "_" ++ id) ++ "." ++ qos_policy_kind_to_cstr k ∧
    declare_qos_parameters PublisherQosParametersTraits
        ⟨"", [.Depth], none⟩ pass_through_store "chatter" rmw_qos_profile_default
      = .ok (rmw_qos_profile_default,
          [⟨"qos_overrides.chatter.publisher.depth", .int 10,
            "qos policy \x7bdepth\x7d for publisher \x7bchatter\x7d", true⟩]) ∧
    declare_qos_parameters PublisherQosParametersTraits
        ⟨"sensor", [.Depth], none⟩ pass_through_store "chatter" rmw_qos_profile_default
      = .ok (rmw_qos_profile_default,
          [⟨"qos_overrides.chatter.publisher_sensor.depth", .int 10,
            "qos policy \x7bdepth\x7d for publisher \x7bchatter\x7d with id \x7bsensor\x7d",
            true⟩]) := by
  refine ⟨?_, by decide, by decide⟩
  unfold qos_parameter_name
  by_cases h : id = "" <;>
    simp [h, String.append_assoc, String.append_empty]

/-- C9: a parameter value whose variant does not match the type the
policy kind requires makes `apply_qos_override` fail with the
parameter-type error, leaving the profile unmodified (no new profile is
produced). -/
theorem C9_wrong_variant (k : QosPolicyKind) (v : ParameterValue) (p : RmwQosProfile)
    (h : param_value_type v ≠ required_param_type k) :
    apply_qos_override k v p = .error .invalidParameterType := by
  cases k <;> cases v <;> first
    | exact absurd rfl h
    | rfl

/-- Witness for C9: a string value supplied for Depth (an int64 kind). -/
theorem C9_wrong_variant_witness :
    param_value_type (.str "hello") ≠ required_param_type .Depth ∧
    apply_qos_override .Depth (.str "hello") rmw_qos_profile_default =
      .error .invalidParameterType :=
  ⟨by decide, C9_wrong_variant .Depth (.str "hello") rmw_qos_profile_default (by decide)⟩

/-- C3: for every string-enum policy kind and every string the kind's
reverse lookup does not recognise, `apply_qos_override` fails with the
unknown-policy-value error carrying the kind and the offending string,
and no modified profile is produced. -/
theorem C3_unknown_enum_string (k : QosPolicyKind) (s : String) (p : RmwQosProfile)
    (hk : k ∈ string_enum_kinds) (h : reverse_lookup_is_unknown k s) :
    apply_qos_override k (.str s) p = .error (.unknownPolicyValue k s) := by
  cases k <;>
    simp_all [string_enum_kinds, reverse_lookup_is_unknown, apply_qos_override,
      ParameterValue.get_string]

/-- Witness for C3: the string `"not-a-real-value"` for Durability. -/
theorem C3_unknown_enum_string_witness :
    QosPolicyKind.Durability ∈ string_enum_kinds ∧
    reverse_lookup_is_unknown .Durability "not-a-real-value" ∧
    apply_qos_override .Durability (.str "not-a-real-value") rmw_qos_profile_default =
      .error (.unknownPolicyValue .Durability "not-a-real-value") :=
  ⟨by decide, by decide,
    C3_unknown_enum_string .Durability "not-a-real-value" rmw_qos_profile_default
      (by decide) (by decide)⟩

/-- C7: for every string-enum policy kind, if the profile's current
enum value has no canonical string (the forward lookup yields none),
`get_default_qos_param_value` fails with the value-conversion error
identifying the kind. -/
theorem C7_unstringifiable_default (k : QosPolicyKind) (p : RmwQosProfile)
    (hk : k ∈ string_enum_kinds) (h : stringified_policy_at k p = none) :
    get_default_qos_param_value k p = .error (.valueConversion k) := by
  cases k <;>
    simp_all [string_enum_kinds, stringified_policy_at, get_default_qos_param_value,
      check_if_stringified_policy_is_null]

/-- Folding two step functions that agree on every list element from
the same state gives the same result. -/
theorem foldlM_congr_on_mem {α β ε : Type} {f g : β → α → Except ε β} (l : List α)
    (h : ∀ a ∈ l, ∀ b, f b a = g b a) (init : β) :
    l.foldlM f init = l.foldlM g init := by
  induction l generalizing init with
  | nil => rfl
  | cons x xs ih =>
    rw [List.foldlM_cons, List.foldlM_cons, h x (by simp)]
    have hrest : (fun b => xs.foldlM f b) = fun b => xs.foldlM g b :=
      funext fun b => ih (fun a ha b => h a (by simp [ha]) b) b
    rw [hrest]

/-- A fold whose step leaves the state untouched on every list element
returns the initial state. -/
theorem foldlM_skip {α β ε : Type} {f : β → α → Except ε β} (l : List α)
    (h : ∀ a ∈ l, ∀ b, f b a = .ok b) (init : β) :
    l.foldlM f init = .ok init := by
  induction l generalizing init with
  | nil => rfl
  | cons x xs ih =>
    rw [List.foldlM_cons, h x (by simp)]
    exact ih (fun a ha b => h a (by simp [ha]) b) init

/-- C4: when the catalog loop succeeds (every conversion and
declaration went through, yielding the mutated profile `q`) but the
validation callback rejects `q`, `declare_qos_parameters` fails with
the invalid-profile error "validation callback failed". -/
theorem C4_validation_failure (traits : EntityQosParametersTraits)
    (options : QosOverridingOptions)
    (store : String → ParameterValue → Except QosError ParameterValue)
    (topic_name : String) (qos q : RmwQosProfile) (declared : List DeclaredParam)
    (cb : RmwQosProfile → Bool)
    (hloop : declare_qos_parameters_loop traits options store topic_name qos =
      .ok (q, declared))
    (hcb : options.validation_callback = some cb) (hfail : cb q = false) :
    declare_qos_parameters traits options store topic_name qos =
      .error (.invalidProfile "validation callback failed") := by
  simp [declare_qos_parameters, hloop, hcb, hfail]

/-- Witness for C4: a store that overrides Depth to 5 (so the profile
is mutated from its default depth 10) together with an
always-rejecting callback. -/
theorem C4_validation_failure_witness :
    declare_qos_parameters_loop PublisherQosParametersTraits
      ⟨"", [.Depth], some (fun _ => false)⟩ (fun _ _ => .ok (.int 5)) "chatter"
      rmw_qos_profile_default =
      .ok ({ rmw_qos_profile_default with depth := 5 },
        [⟨"qos_overrides.chatter.publisher.depth", .int 10,
          "qos policy \x7bdepth\x7d for publisher \x7bchatter\x7d", true⟩]) ∧
    ({ rmw_qos_profile_default with depth := 5 } : RmwQosProfile) ≠
      rmw_qos_profile_default ∧
    declare_qos_parameters PublisherQosParametersTraits
      ⟨"", [.Depth], some (fun _ => false)⟩ (fun _ _ => .ok (.int 5)) "chatter"
      rmw_qos_profile_default = .error (.invalidProfile "validation callback failed") :=
  ⟨by decide, by decide,
    C4_validation_failure PublisherQosParametersTraits
      ⟨"", [.Depth], some (fun _ => false)⟩ (fun _ _ => .ok (.int 5)) "chatter"
      rmw_qos_profile_default { rmw_qos_profile_default with depth := 5 }
      [⟨"qos_overrides.chatter.publisher.depth", .int 10,
        "qos policy \x7bdepth\x7d for publisher \x7bchatter\x7d", true⟩]
      (fun _ => false) (by decide) rfl rfl⟩

/-- C6: a requested policy kind outside the entity's catalog is
silently skipped — adding it to the requested set changes nothing: no
parameter is declared for it, no error is raised because of it, and
the resulting profile is identical. -/
theorem C6_noncatalog_kind_skipped (traits : EntityQosParametersTraits)
    (options : QosOverridingOptions)
    (store : String → ParameterValue → Except QosError ParameterValue)
    (topic_name : String) (qos : RmwQosProfile) (k : QosPolicyKind)
    (hk : k ∉ traits.allowed_policies) :
    declare_qos_parameters traits
      { options with policy_kinds := k :: options.policy_kinds } store topic_name qos =
      declare_qos_parameters traits options store topic_name qos := by
  have hloop : declare_qos_parameters_loop traits
      { options with policy_kinds := k :: options.policy_kinds } store topic_name qos =
      declare_qos_parameters_loop traits options store topic_name qos := by
    unfold declare_qos_parameters_loop
    apply foldlM_congr_on_mem
    intro a ha st
    have hak : k ≠ a := fun h => hk (h ▸ ha)
    unfold declare_qos_parameters_step
    simp [List.count_cons, beq_eq_false_iff_ne.mpr hak]
  simp [declare_qos_parameters, hloop]

/-- Witness for C6: requesting Lifespan from a subscription, whose
catalog omits it. -/
theorem C6_noncatalog_kind_skipped_witness :
    QosPolicyKind.Lifespan ∉ SubscriptionQosParametersTraits.allowed_policies ∧
    declare_qos_parameters SubscriptionQosParametersTraits
      { id := "", policy_kinds := [.Lifespan], validation_callback := none }
      pass_through_store "chatter" rmw_qos_profile_default =
      declare_qos_parameters SubscriptionQosParametersTraits
        { id := "", policy_kinds := [], validation_callback := none }
        pass_through_store "chatter" rmw_qos_profile_default :=
  ⟨by decide,
    C6_noncatalog_kind_skipped SubscriptionQosParametersTraits
      { id := "", policy_kinds := [], validation_callback := none }
      pass_through_store "chatter" rmw_qos_profile_default .Lifespan (by decide)⟩

/-- C10: when the requested policy-kind set shares no member with the
catalog, the loop declares nothing and leaves the profile unchanged,
yet the validation callback is still invoked on that unchanged profile
and can still fail the call with the invalid-profile error. -/
theorem C10_disjoint_request (traits : EntityQosParametersTraits)
    (options : QosOverridingOptions)
    (store : String → ParameterValue → Except QosError ParameterValue)
    (topic_name : String) (qos : RmwQosProfile)
    (hdisj : ∀ k ∈ options.policy_kinds, k ∉ traits.allowed_policies) :
    declare_qos_parameters_loop traits options store topic_name qos = .ok (qos, []) ∧
    (∀ cb, options.validation_callback = some cb → cb qos = false →
      declare_qos_parameters traits options store topic_name qos =
        .error (.invalidProfile "validation callback failed")) := by
  have hloop : declare_qos_parameters_loop traits options store topic_name qos =
      .ok (qos, []) := by
    unfold declare_qos_parameters_loop
    apply foldlM_skip
    intro a ha st
    have hz : options.policy_kinds.count a = 0 :=
      List.count_eq_zero.mpr (fun hmem => hdisj a hmem ha)
    unfold declare_qos_parameters_step
    simp [hz]
  refine ⟨hloop, fun cb hcb hfail => ?_⟩
  simp [declare_qos_parameters, hloop, hcb, hfail]

/-- Witness for C10: a subscription asked only for Lifespan (not in its
catalog) with an always-rejecting callback: nothing is declared, the
profile is unchanged, and the call still fails. -/
theorem C10_disjoint_request_witness :
    (∀ k ∈ ([.Lifespan] : List QosPolicyKind),
      k ∉ SubscriptionQosParametersTraits.allowed_policies) ∧
    declare_qos_parameters_loop SubscriptionQosParametersTraits
      ⟨"", [.Lifespan], some (fun _ => false)⟩ pass_through_store "chatter"
      rmw_qos_profile_default = .ok (rmw_qos_profile_default, []) ∧
    declare_qos_parameters SubscriptionQosParametersTraits
      ⟨"", [.Lifespan], some (fun _ => false)⟩ pass_through_store "chatter"
      rmw_qos_profile_default = .error (.invalidProfile "validation callback failed") := by
  have h := C10_disjoint_request SubscriptionQosParametersTraits
    ⟨"", [.Lifespan], some (fun _ => false)⟩ pass_through_store "chatter"
    rmw_qos_profile_default (by decide)
  exact ⟨by decide, h.1, h.2 (fun _ => false) rfl rfl⟩

/-- Witness for C7: a profile whose durability slot holds the unmapped
enum value. -/
theorem C7_unstringifiable_default_witness :
    QosPolicyKind.Durability ∈ string_enum_kinds ∧
    stringified_policy_at .Durability
      { rmw_qos_profile_default with durability := .unknown } = none ∧
    get_default_qos_param_value .Durability
        { rmw_qos_profile_default with durability := .unknown } =
      .error (.valueConversion .Durability) :=
  ⟨by decide, by decide,
    C7_unstringifiable_default .Durability
      { rmw_qos_profile_default with durability := .unknown } (by decide) (by decide)⟩

end QosParams
